import Mathlib

/-!
# Rolling-window support predicates and output store (`rolling_detail.hpp`)

A shallow embedding of `cudf::detail::is_supported`, `cudf::detail::is_string_supported`
and `cudf::detail::store_output_functor`, followed by the properties proved about them.

Template arguments become ordinary arguments.  The facilities the header takes from other
headers (`cudf::is_numeric`, `cudf::is_timestamp`, `cudf::is_boolean`, identity with
`cudf::string_view`, `is_valid_aggregation`) are not re-implemented: a column type is
represented by the answers those traits give for it, and `is_valid_aggregation` is an
argument of `is_supported`.
-/

set_option linter.unusedVariables false

namespace cudf

namespace experimental

namespace aggregation

/-- Modelled from the spec: the enumeration `aggregation::Kind` is declared in
`cudf/detail/aggregation/aggregation.hpp`, which is outside the modelled sources. The six
kinds the rolling header names are kept by name; every further member of the larger
enumeration is `other n`. -/
inductive Kind where
  | SUM
  | MIN
  | MAX
  | COUNT_VALID
  | COUNT_ALL
  | MEAN
  | other (n : Nat)
  deriving DecidableEq

end aggregation

end experimental

/-- Modelled from the spec: the reduction operator types live in
`cudf/detail/utilities/device_operators.cuh`, which is outside the modelled sources. The
header compares `AggOp` against `DeviceMin`, `DeviceMax` and `DeviceCount` by type identity;
`DeviceSum` and `other n` stand for the operator types that are none of these. -/
inductive AggOp where
  | DeviceSum
  | DeviceMin
  | DeviceMax
  | DeviceCount
  | other (n : Nat)
  deriving DecidableEq

/-- Modelled from the spec: the element types and their classification traits are declared
in `cudf/utilities/traits.hpp`, which is outside the modelled sources. A column type is
given by the answers of the traits the header asks about it:
`cudf::is_numeric<T>()`, `cudf::is_timestamp<T>()`, `cudf::is_boolean<T>()` and
`std::is_same<T, cudf::string_view>::value`. -/
structure ColumnType where
  is_numeric : Bool
  is_timestamp : Bool
  is_boolean : Bool
  is_string_view : Bool
  deriving DecidableEq

namespace detail

open experimental.aggregation

/-- The template `is_supported<ColumnType, AggOp, op, is_mean>()`. The first argument is the
external `cudf::experimental::detail::is_valid_aggregation<ColumnType, op>()`. -/
def is_supported (is_valid_aggregation : ColumnType → Kind → Bool)
    (T : ColumnType) (A : AggOp) (op : Kind) (is_mean : Bool) : Bool :=
  let is_comparable_countable_op : Bool :=
    decide (A = AggOp.DeviceMin) ||
    decide (A = AggOp.DeviceMax) ||
    decide (A = AggOp.DeviceCount)
  let is_operation_supported : Bool :=
    decide (op = Kind.SUM) ||
    decide (op = Kind.MIN) ||
    decide (op = Kind.MAX) ||
    decide (op = Kind.COUNT_VALID) ||
    decide (op = Kind.COUNT_ALL) ||
    decide (op = Kind.MEAN)
  let is_valid_timestamp_agg : Bool :=
    T.is_timestamp &&
      (decide (op = Kind.MIN) ||
       decide (op = Kind.MAX) ||
       decide (op = Kind.COUNT_VALID) ||
       decide (op = Kind.COUNT_ALL) ||
       decide (op = Kind.MEAN))
  let is_valid_numeric_agg : Bool :=
    (T.is_numeric || is_comparable_countable_op) && is_operation_supported
  let is_valid_rolling_agg : Bool :=
    !T.is_string_view && (is_valid_timestamp_agg || is_valid_numeric_agg)
  is_valid_rolling_agg && is_valid_aggregation T op

/-- The template `is_string_supported<ColumnType, AggOp, Op>()`. -/
def is_string_supported (T : ColumnType) (A : AggOp) (Op : Kind) : Bool :=
  T.is_string_view &&
    ((decide (Kind.MIN = Op) && decide (A = AggOp.DeviceMin)) ||
     (decide (Kind.MAX = Op) && decide (A = AggOp.DeviceMax)) ||
     (decide (Kind.COUNT_VALID = Op) && decide (A = AggOp.DeviceCount)) ||
     (decide (Kind.COUNT_ALL = Op) && decide (A = AggOp.DeviceCount)))

end detail

/-! ## Machine integers

The arithmetic of `store_output_functor` is C++ integer arithmetic. Values are mathematical
integers; every conversion to a fixed-width type is written out as a reduction modulo
`2 ^ bits`, and a division whose behaviour C++ leaves undefined has no result. -/

/-- The fixed-width integer types of `<cstdint>`. -/
inductive IntType where
  | int8_t
  | uint8_t
  | int16_t
  | uint16_t
  | int32_t
  | uint32_t
  | int64_t
  | uint64_t
  deriving DecidableEq

/-- Width in bits. -/
def IntType.bits : IntType → Nat
  | .int8_t => 8
  | .uint8_t => 8
  | .int16_t => 16
  | .uint16_t => 16
  | .int32_t => 32
  | .uint32_t => 32
  | .int64_t => 64
  | .uint64_t => 64

/-- Signedness, as `std::is_signed`. -/
def IntType.is_signed : IntType → Bool
  | .int8_t => true
  | .uint8_t => false
  | .int16_t => true
  | .uint16_t => false
  | .int32_t => true
  | .uint32_t => false
  | .int64_t => true
  | .uint64_t => false

/-- Smallest value, as `std::numeric_limits<T>::min()`. -/
def IntType.min (t : IntType) : Int :=
  if t.is_signed then -(2 ^ (t.bits - 1)) else 0

/-- Largest value, as `std::numeric_limits<T>::max()`. -/
def IntType.max (t : IntType) : Int :=
  if t.is_signed then 2 ^ (t.bits - 1) - 1 else 2 ^ t.bits - 1

/-- Whether `x` is a value of type `t`. -/
def IntType.holds (t : IntType) (x : Int) : Bool :=
  decide (t.min ≤ x) && decide (x ≤ t.max)

/-- Integral conversion to `t`: the value congruent to `x` modulo `2 ^ bits` that `t` holds. -/
def IntType.convert (t : IntType) (x : Int) : Int :=
  let m := x % 2 ^ t.bits
  if t.is_signed && decide (2 ^ (t.bits - 1) ≤ m) then m - 2 ^ t.bits else m

/-- Integral promotion: a type narrower than `int` is promoted to `int` (32 bits). -/
def IntType.promote (t : IntType) : IntType :=
  if t.bits < 32 then IntType.int32_t else t

/-- The usual arithmetic conversions for two integer operand types: both are promoted; with
equal signedness the wider type wins; otherwise the unsigned type wins unless the signed type
is strictly wider. -/
def common_type (a b : IntType) : IntType :=
  let pa := a.promote
  let pb := b.promote
  if pa.is_signed = pb.is_signed then
    if pa.bits < pb.bits then pb else pa
  else
    let u := if pa.is_signed then pb else pa
    let s := if pa.is_signed then pa else pb
    if s.bits ≤ u.bits then u else s

/-- Built-in division `a / b` of two values of type `t`: the quotient truncated toward zero.
There is no result when the divisor is zero or the quotient is not a value of `t`
(`min / -1` for a signed type): both are undefined behaviour. -/
def IntType.div (t : IntType) (a b : Int) : Option Int :=
  if b = 0 then none
  else if t.holds (Int.tdiv a b) then some (Int.tdiv a b) else none

/-- The expression `a / b` for operands of integer types `ta` and `tb`: both operands are
converted to the common type and divided there. -/
def arith_div (ta tb : IntType) (a b : Int) : Option Int :=
  let c := common_type ta tb
  c.div (c.convert a) (c.convert b)

/-- The type `cudf::size_type`, a signed 32-bit integer. -/
def size_type : IntType := IntType.int32_t

namespace detail

/-- The arguments of `operator()(T &out, T &val, size_type count)` as an explicit state: the
two referenced slots and the count. -/
structure Slots (T : Type) where
  out : T
  val : T
  count : Int
  deriving DecidableEq

/-- The primary template `store_output_functor<T, is_mean>::operator()`, which is the one
chosen whenever `is_mean` is `false`: `out = val`. -/
def store_output_functor {T : Type} (s : Slots T) : Slots T :=
  { s with out := s.val }

/-- The specialization `store_output_functor<_T, true>::operator()` for an element type whose
values are carried by the integer type `rep`: the integer type itself, the storage of the
boolean type, or the tick count of a timestamp (its `time_since_epoch()`). The overload is
selected from the traits of `T` as the three `enable_if` conditions do. There is no result
when the call is ambiguous (both `is_boolean` and `is_timestamp`) or the division is
undefined. -/
def store_output_functor_mean (T : ColumnType) (rep : IntType) (s : Slots Int) :
    Option (Slots Int) :=
  if T.is_boolean && T.is_timestamp then none
  else if T.is_boolean then
    -- out = static_cast<int32_t>(val) / count;
    (arith_div IntType.int32_t size_type (IntType.int32_t.convert s.val) s.count).map
      fun q => { s with out := rep.convert q }
  else if T.is_timestamp then
    -- out = val.time_since_epoch() / count;
    (arith_div rep size_type s.val s.count).map
      fun q => { s with out := rep.convert q }
  else
    -- out = val / count;
    (arith_div rep size_type s.val s.count).map
      fun q => { s with out := rep.convert q }

/-! ## Column types used as concrete inputs -/

/-- Modelled from the spec: a 32-bit signed integer column, classified as numeric only. -/
def int32_column : ColumnType :=
  { is_numeric := true, is_timestamp := false, is_boolean := false, is_string_view := false }

/-- Modelled from the spec: the boolean column type, which the traits classify as numeric
and as boolean. -/
def bool8_column : ColumnType :=
  { is_numeric := true, is_timestamp := false, is_boolean := true, is_string_view := false }

/-- Modelled from the spec: a timestamp column type, a wrapper that is neither numeric nor
text. -/
def timestamp_column : ColumnType :=
  { is_numeric := false, is_timestamp := true, is_boolean := false, is_string_view := false }

/-- Modelled from the spec: the text column type `cudf::string_view`. -/
def string_view_column : ColumnType :=
  { is_numeric := false, is_timestamp := false, is_boolean := false, is_string_view := true }

/-- An `is_valid_aggregation` that accepts every type and kind. -/
def valid_always : ColumnType → Kind → Bool := fun _ _ => true

/-- An `is_valid_aggregation` that rejects every type and kind. -/
def valid_never : ColumnType → Kind → Bool := fun _ _ => false

end detail

end cudf

/-! # Properties -/

namespace cudf

/-! ## Machine integer facts -/

/-- For a positive divisor the truncated quotient lies between zero and the dividend. -/
theorem tdiv_between (v n : Int) (hn : 0 < n) :
    (0 ≤ v → 0 ≤ Int.tdiv v n ∧ Int.tdiv v n ≤ v) ∧
      (v ≤ 0 → v ≤ Int.tdiv v n ∧ Int.tdiv v n ≤ 0) := by
  have key : ∀ a : Int, 0 ≤ a → 0 ≤ Int.tdiv a n ∧ Int.tdiv a n ≤ a := by
    intro a ha
    rw [Int.tdiv_eq_ediv ha (le_of_lt hn)]
    exact ⟨Int.ediv_nonneg ha (le_of_lt hn), Int.ediv_le_self n ha⟩
  refine ⟨key v, ?_⟩
  intro hv
  have h := key (-v) (by omega)
  rw [Int.neg_tdiv] at h
  omega

/-- For a positive divisor the truncated remainder is smaller than the divisor in absolute
value and has the sign of the dividend. -/
theorem tmod_sign (v n : Int) (hn : 0 < n) :
    (0 ≤ v → 0 ≤ Int.tmod v n ∧ Int.tmod v n < n) ∧
      (v ≤ 0 → -n < Int.tmod v n ∧ Int.tmod v n ≤ 0) := by
  have key : ∀ a : Int, 0 ≤ a → 0 ≤ Int.tmod a n ∧ Int.tmod a n < n := by
    intro a ha
    exact ⟨Int.tmod_nonneg n ha, Int.tmod_lt_of_pos a hn⟩
  refine ⟨key v, ?_⟩
  intro hv
  have h := key (-v) (by omega)
  have h1 := Int.tmod_def v n
  have h2 := Int.tmod_def (-v) n
  rw [Int.neg_tdiv, Int.mul_neg] at h2
  omega

/-- The truncated quotient is the only `q` with `v = q * n + r`, `|r| < n` and `r` zero or
of the sign of `v`. -/
theorem tdiv_unique (v n q r : Int) (hn : 0 < n) (hv : v = q * n + r) (hr : |r| < n)
    (hs : r = 0 ∨ (0 < r ∧ 0 < v) ∨ (r < 0 ∧ v < 0)) : q = Int.tdiv v n := by
  have e := Int.tdiv_add_tmod' v n
  have hb := tdiv_between v n hn
  have hm := tmod_sign v n hn
  have habs := abs_lt.mp hr
  have hd : (q - Int.tdiv v n) * n = Int.tmod v n - r := by
    have : q * n - Int.tdiv v n * n = Int.tmod v n - r := by omega
    rw [Int.sub_mul]
    exact this
  have hlt : |Int.tmod v n - r| < n := by
    rw [abs_lt]
    rcases le_total 0 v with h0 | h0
    · have := hm.1 h0
      constructor <;> omega
    · have := hm.2 h0
      constructor <;> omega
  have hz : Int.tmod v n - r = 0 :=
    Int.eq_zero_of_abs_lt_dvd (Dvd.intro_left _ hd) hlt
  rw [hz] at hd
  rcases Int.mul_eq_zero.mp hd with h | h
  · omega
  · omega

/-- Membership in a type, as two inequalities. -/
theorem IntType.holds_iff (t : IntType) (x : Int) :
    t.holds x = true ↔ t.min ≤ x ∧ x ≤ t.max := by
  simp [IntType.holds]

/-- Converting a value the type already holds leaves it unchanged. -/
theorem IntType.convert_of_holds (t : IntType) (x : Int) (h : t.holds x = true) :
    t.convert x = x := by
  rw [IntType.holds_iff] at h
  cases t <;>
    simp only [IntType.min, IntType.max, IntType.bits, IntType.is_signed, IntType.convert,
      if_true, Bool.true_and, Bool.false_and, decide_eq_true_eq] at h ⊢ <;>
    norm_num at h ⊢ <;> omega

/-- Every type holds every value between zero and a value it holds. -/
theorem IntType.holds_between (t : IntType) (v q : Int) (h : t.holds v = true)
    (hq : (0 ≤ q ∧ q ≤ v) ∨ (v ≤ q ∧ q ≤ 0)) : t.holds q = true := by
  rw [IntType.holds_iff] at h ⊢
  cases t <;> simp only [IntType.min, IntType.max, IntType.bits, IntType.is_signed, if_true]
    at h ⊢ <;> norm_num at h ⊢ <;> omega

/-- The common type of `rep` and `size_type` holds every value of `rep`. -/
theorem common_type_holds_left (rep : IntType) (v : Int) (h : rep.holds v = true) :
    (common_type rep size_type).holds v = true := by
  rw [IntType.holds_iff] at h ⊢
  cases rep <;>
    simp only [common_type, size_type, IntType.promote, IntType.min, IntType.max,
      IntType.bits, IntType.is_signed, if_true] at h ⊢ <;>
    norm_num at h ⊢ <;> omega

/-- The common type of `rep` and `size_type` holds every positive value of `size_type`. -/
theorem common_type_holds_count (rep : IntType) (n : Int) (hn : 0 < n)
    (h : size_type.holds n = true) : (common_type rep size_type).holds n = true := by
  rw [IntType.holds_iff] at h ⊢
  cases rep <;>
    simp only [common_type, size_type, IntType.promote, IntType.min, IntType.max,
      IntType.bits, IntType.is_signed, if_true] at h ⊢ <;>
    norm_num at h ⊢ <;> omega

/-- The quotient `v / n` of a value of `rep` by a positive `size_type` count is defined and
is the quotient truncated toward zero. -/
theorem arith_div_count (rep : IntType) (v n : Int) (hv : rep.holds v = true) (hn : 0 < n)
    (hc : size_type.holds n = true) :
    arith_div rep size_type v n = some (Int.tdiv v n) := by
  have h1 := common_type_holds_left rep v hv
  have h2 := common_type_holds_count rep n hn hc
  have hb := tdiv_between v n hn
  have hq : (common_type rep size_type).holds (Int.tdiv v n) = true := by
    apply IntType.holds_between _ v _ h1
    rcases le_total 0 v with h0 | h0
    · exact Or.inl (hb.1 h0)
    · exact Or.inr (hb.2 h0)
  have hne : n ≠ 0 := by omega
  simp only [arith_div, IntType.div, IntType.convert_of_holds _ _ h1,
    IntType.convert_of_holds _ _ h2, hne, if_false, hq, if_true]

/-- The truncated quotient by a positive count is a value of every type that holds the
dividend, so storing it converts nothing. -/
theorem convert_tdiv (rep : IntType) (v n : Int) (hv : rep.holds v = true) (hn : 0 < n) :
    rep.convert (Int.tdiv v n) = Int.tdiv v n := by
  have hb := tdiv_between v n hn
  apply IntType.convert_of_holds
  apply IntType.holds_between _ v _ hv
  rcases le_total 0 v with h0 | h0
  · exact Or.inl (hb.1 h0)
  · exact Or.inr (hb.2 h0)

namespace detail

open experimental.aggregation

/-! ## The compatibility predicates -/

/-- C1, as stated, fails: for a timestamp column type (not numeric, not text) with the
operator `DeviceMin` and an `is_valid_aggregation` that answers `true`, `is_supported`
with kind `SUM` is `true`, because the numeric branch admits every comparable or countable
operator with every one of the six kinds. -/
theorem is_supported_timestamp_sum_accepted :
    timestamp_column.is_timestamp = true ∧
      is_supported valid_always timestamp_column AggOp.DeviceMin Kind.SUM false = true := by
  decide

/-- C1, amended: for a timestamp column type that is not classified as numeric and an
operator that is none of `DeviceMin`, `DeviceMax`, `DeviceCount`, `is_supported` with kind
`SUM` is `false` whatever `is_valid_aggregation` answers; and whenever `is_supported`
accepts such a type with such an operator, the kind is one of `MIN`, `MAX`, `COUNT_VALID`,
`COUNT_ALL`, `MEAN`. -/
theorem is_supported_timestamp_sum_rejected
    (valid : ColumnType → Kind → Bool) (T : ColumnType) (A : AggOp) (op : Kind) (m : Bool)
    (hts : T.is_timestamp = true) (hnum : T.is_numeric = false)
    (hmin : A ≠ AggOp.DeviceMin) (hmax : A ≠ AggOp.DeviceMax) (hcnt : A ≠ AggOp.DeviceCount) :
    is_supported valid T A Kind.SUM m = false ∧
      (is_supported valid T A op m = true →
        op = Kind.MIN ∨ op = Kind.MAX ∨ op = Kind.COUNT_VALID ∨ op = Kind.COUNT_ALL ∨
          op = Kind.MEAN) := by
  constructor
  · simp [is_supported, hnum, hmin, hmax, hcnt]
  · intro h
    simp only [is_supported, hts, hnum, hmin, hmax, hcnt, decide_False, Bool.or_false,
      Bool.false_and, Bool.true_and, Bool.and_eq_true, Bool.or_eq_true,
      decide_eq_true_eq] at h
    tauto

/-- Witness for C1 (amended): a timestamp column with the operator `DeviceSum`. -/
theorem is_supported_timestamp_sum_rejected_witness :
    is_supported valid_always timestamp_column AggOp.DeviceSum Kind.SUM true = false ∧
      (is_supported valid_always timestamp_column AggOp.DeviceSum Kind.MEAN true = true →
        Kind.MEAN = Kind.MIN ∨ Kind.MEAN = Kind.MAX ∨ Kind.MEAN = Kind.COUNT_VALID ∨
          Kind.MEAN = Kind.COUNT_ALL ∨ Kind.MEAN = Kind.MEAN) :=
  is_supported_timestamp_sum_rejected valid_always timestamp_column AggOp.DeviceSum Kind.MEAN
    true rfl rfl (by decide) (by decide) (by decide)

/-- C2: `is_string_supported` is `true` exactly when the column type is `string_view` and
the (kind, operator) pair is one of (MIN, DeviceMin), (MAX, DeviceMax),
(COUNT_VALID, DeviceCount), (COUNT_ALL, DeviceCount); in particular it is `false` for
`SUM` and for `MEAN` with every operator, for `MIN` with `DeviceMax` and for `COUNT_VALID`
with `DeviceMin`. -/
theorem is_string_supported_iff (T : ColumnType) (A : AggOp) (op : Kind) :
    (is_string_supported T A op = true ↔
      (T.is_string_view = true ∧
        ((op = Kind.MIN ∧ A = AggOp.DeviceMin) ∨
         (op = Kind.MAX ∧ A = AggOp.DeviceMax) ∨
         (op = Kind.COUNT_VALID ∧ A = AggOp.DeviceCount) ∨
         (op = Kind.COUNT_ALL ∧ A = AggOp.DeviceCount)))) ∧
      is_string_supported T A Kind.SUM = false ∧
      is_string_supported T A Kind.MEAN = false ∧
      is_string_supported T AggOp.DeviceMax Kind.MIN = false ∧
      is_string_supported T AggOp.DeviceMin Kind.COUNT_VALID = false := by
  refine ⟨?_, by simp [is_string_supported], by simp [is_string_supported],
    by simp [is_string_supported], by simp [is_string_supported]⟩
  simp only [is_string_supported, Bool.and_eq_true, Bool.or_eq_true, decide_eq_true_eq]
  constructor
  · rintro ⟨hs, h⟩
    refine ⟨hs, ?_⟩
    rcases h with ((⟨h1, h2⟩ | ⟨h1, h2⟩) | ⟨h1, h2⟩) | ⟨h1, h2⟩
    · exact Or.inl ⟨h1.symm, h2⟩
    · exact Or.inr (Or.inl ⟨h1.symm, h2⟩)
    · exact Or.inr (Or.inr (Or.inl ⟨h1.symm, h2⟩))
    · exact Or.inr (Or.inr (Or.inr ⟨h1.symm, h2⟩))
  · rintro ⟨hs, h⟩
    refine ⟨hs, ?_⟩
    rcases h with ⟨h1, h2⟩ | ⟨h1, h2⟩ | ⟨h1, h2⟩ | ⟨h1, h2⟩
    · exact Or.inl (Or.inl (Or.inl ⟨h1.symm, h2⟩))
    · exact Or.inl (Or.inl (Or.inr ⟨h1.symm, h2⟩))
    · exact Or.inl (Or.inr ⟨h1.symm, h2⟩)
    · exact Or.inr ⟨h1.symm, h2⟩

/-- C3: for the text column type `is_supported` is `false` for every operator, every kind
and every answer of `is_valid_aggregation`. -/
theorem is_supported_string_view_rejected
    (valid : ColumnType → Kind → Bool) (T : ColumnType) (A : AggOp) (op : Kind) (m : Bool)
    (htext : T.is_string_view = true) :
    is_supported valid T A op m = false := by
  simp [is_supported, htext]

/-- Witness for C3: the text column with `DeviceMin` and `MIN`. -/
theorem is_supported_string_view_rejected_witness :
    is_supported valid_always string_view_column AggOp.DeviceMin Kind.MIN false = false :=
  is_supported_string_view_rejected valid_always string_view_column AggOp.DeviceMin Kind.MIN
    false rfl

/-- C4: a kind that is none of `SUM`, `MIN`, `MAX`, `COUNT_VALID`, `COUNT_ALL`, `MEAN` is
rejected by `is_supported` for every column type and operator, whatever
`is_valid_aggregation` answers. -/
theorem is_supported_other_kind_rejected
    (valid : ColumnType → Kind → Bool) (T : ColumnType) (A : AggOp) (op : Kind) (m : Bool)
    (hsum : op ≠ Kind.SUM) (hmin : op ≠ Kind.MIN) (hmax : op ≠ Kind.MAX)
    (hcv : op ≠ Kind.COUNT_VALID) (hca : op ≠ Kind.COUNT_ALL) (hmean : op ≠ Kind.MEAN) :
    is_supported valid T A op m = false := by
  simp [is_supported, hsum, hmin, hmax, hcv, hca, hmean]

/-- Witness for C4: a numeric column, `DeviceSum`, and a kind outside the six. -/
theorem is_supported_other_kind_rejected_witness :
    is_supported valid_always int32_column AggOp.DeviceSum (Kind.other 0) false = false :=
  is_supported_other_kind_rejected valid_always int32_column AggOp.DeviceSum (Kind.other 0)
    false (by decide) (by decide) (by decide) (by decide) (by decide) (by decide)

/-- C5: a column type that is not text, with a numeric type or one of the operators
`DeviceMin`, `DeviceMax`, `DeviceCount`, and one of the six kinds, is accepted by
`is_supported` whenever `is_valid_aggregation` holds for the type and kind. -/
theorem is_supported_numeric_branch
    (valid : ColumnType → Kind → Bool) (T : ColumnType) (A : AggOp) (op : Kind) (m : Bool)
    (htext : T.is_string_view = false)
    (hnum : T.is_numeric = true ∨ A = AggOp.DeviceMin ∨ A = AggOp.DeviceMax ∨
      A = AggOp.DeviceCount)
    (hop : op = Kind.SUM ∨ op = Kind.MIN ∨ op = Kind.MAX ∨ op = Kind.COUNT_VALID ∨
      op = Kind.COUNT_ALL ∨ op = Kind.MEAN)
    (hvalid : valid T op = true) :
    is_supported valid T A op m = true := by
  have h1 : (T.is_numeric || (decide (A = AggOp.DeviceMin) || decide (A = AggOp.DeviceMax) ||
      decide (A = AggOp.DeviceCount))) = true := by
    rcases hnum with h | h | h | h <;> simp [h]
  have h2 : (decide (op = Kind.SUM) || decide (op = Kind.MIN) || decide (op = Kind.MAX) ||
      decide (op = Kind.COUNT_VALID) || decide (op = Kind.COUNT_ALL) ||
      decide (op = Kind.MEAN)) = true := by
    rcases hop with h | h | h | h | h | h <;> simp [h]
  simp only [is_supported, htext, hvalid, h1, h2, Bool.not_false, Bool.true_and,
    Bool.and_true, Bool.or_true]

/-- Witness for C5: a timestamp column (not numeric) with `DeviceMax` and `MAX`. -/
theorem is_supported_numeric_branch_witness :
    is_supported valid_always timestamp_column AggOp.DeviceMax Kind.MAX false = true :=
  is_supported_numeric_branch valid_always timestamp_column AggOp.DeviceMax Kind.MAX false
    rfl (Or.inr (Or.inr (Or.inl rfl))) (Or.inr (Or.inr (Or.inl rfl))) rfl

/-- C6: the boolean column type (numeric, not a timestamp, not text) is accepted by
`is_supported` for every operator and each of `MIN`, `MAX`, `COUNT_VALID`, `COUNT_ALL`,
`MEAN`, given that `is_valid_aggregation` holds for it and that kind. -/
theorem is_supported_boolean
    (valid : ColumnType → Kind → Bool) (T : ColumnType) (A : AggOp) (op : Kind) (m : Bool)
    (hbool : T.is_boolean = true) (hnum : T.is_numeric = true)
    (hts : T.is_timestamp = false) (htext : T.is_string_view = false)
    (hop : op = Kind.MIN ∨ op = Kind.MAX ∨ op = Kind.COUNT_VALID ∨ op = Kind.COUNT_ALL ∨
      op = Kind.MEAN)
    (hvalid : valid T op = true) :
    is_supported valid T A op m = true := by
  have h2 : (decide (op = Kind.SUM) || decide (op = Kind.MIN) || decide (op = Kind.MAX) ||
      decide (op = Kind.COUNT_VALID) || decide (op = Kind.COUNT_ALL) ||
      decide (op = Kind.MEAN)) = true := by
    rcases hop with h | h | h | h | h <;> simp [h]
  simp only [is_supported, htext, hvalid, hnum, h2, Bool.not_false, Bool.true_and,
    Bool.and_true, Bool.or_true, Bool.true_or]

/-- Witness for C6: the boolean column with the operator `DeviceSum` and kind `MEAN`. -/
theorem is_supported_boolean_witness :
    is_supported valid_always bool8_column AggOp.DeviceSum Kind.MEAN true = true :=
  is_supported_boolean valid_always bool8_column AggOp.DeviceSum Kind.MEAN true
    rfl rfl rfl rfl (Or.inr (Or.inr (Or.inr (Or.inr rfl)))) rfl

/-- C7: whenever `is_supported` is `true`, `is_valid_aggregation` holds for the column type
and kind; that is, whenever `is_valid_aggregation` fails, `is_supported` is `false`
whatever the other checks say. -/
theorem is_supported_implies_valid
    (valid : ColumnType → Kind → Bool) (T : ColumnType) (A : AggOp) (op : Kind) (m : Bool) :
    (is_supported valid T A op m = true → valid T op = true) ∧
      (valid T op = false → is_supported valid T A op m = false) := by
  constructor
  · intro h
    simp only [is_supported, Bool.and_eq_true] at h
    exact h.2
  · intro h
    simp [is_supported, h]

/-- Witness for C7: a numeric column with `DeviceSum` and `SUM` is accepted under an
`is_valid_aggregation` that answers `true`, which then holds, and is rejected under one
that answers `false`. -/
theorem is_supported_implies_valid_witness :
    valid_always int32_column Kind.SUM = true ∧
      is_supported valid_never int32_column AggOp.DeviceSum Kind.SUM false = false :=
  ⟨(is_supported_implies_valid valid_always int32_column AggOp.DeviceSum Kind.SUM false).1
      (by decide),
    (is_supported_implies_valid valid_never int32_column AggOp.DeviceSum Kind.SUM false).2
      rfl⟩

/-! ## The output store -/

/-- C8: for every element type, accumulated value `v` and count, the store that is not a
MEAN writes exactly `v` to the output slot, and what it writes does not depend on the
count. -/
theorem store_output_functor_out (T : Type) (out v : T) (n n2 : Int) :
    (store_output_functor { out := out, val := v, count := n }).out = v ∧
      (store_output_functor { out := out, val := v, count := n }).out =
        (store_output_functor { out := out, val := v, count := n2 }).out := by
  exact ⟨rfl, rfl⟩

/-- C9: for an integer element type (neither boolean nor timestamp) with representation
`rep`, a value `v` of that type and a positive `size_type` count `n`, the MEAN store is
defined and writes the quotient of `v` by `n` truncated toward zero: with the remainder
`r`, `v = q * n + r`, `|r| < n` and `r` is zero or has the sign of `v`, and `q` is the only
integer for which such a remainder exists. -/
theorem store_output_functor_mean_integer
    (T : ColumnType) (rep : IntType) (out v n q2 r2 : Int)
    (hbool : T.is_boolean = false) (hts : T.is_timestamp = false)
    (hv : rep.holds v = true) (hn : 0 < n) (hcount : size_type.holds n = true) :
    store_output_functor_mean T rep { out := out, val := v, count := n } =
        some { out := Int.tdiv v n, val := v, count := n } ∧
      v = Int.tdiv v n * n + Int.tmod v n ∧
      |Int.tmod v n| < n ∧
      (Int.tmod v n = 0 ∨ (0 < Int.tmod v n ∧ 0 < v) ∨ (Int.tmod v n < 0 ∧ v < 0)) ∧
      (v = q2 * n + r2 → |r2| < n → (r2 = 0 ∨ (0 < r2 ∧ 0 < v) ∨ (r2 < 0 ∧ v < 0)) →
        q2 = Int.tdiv v n) := by
  have hm := tmod_sign v n hn
  refine ⟨?_, (Int.tdiv_add_tmod' v n).symm, ?_, ?_, ?_⟩
  · simp only [store_output_functor_mean, hbool, hts, Bool.false_and, Bool.false_eq_true,
      if_false, arith_div_count rep v n hv hn hcount, Option.map_some',
      convert_tdiv rep v n hv hn]
  · rw [abs_lt]
    rcases le_total 0 v with h0 | h0
    · have := hm.1 h0
      constructor <;> omega
    · have := hm.2 h0
      constructor <;> omega
  · rcases lt_trichotomy v 0 with h0 | h0 | h0
    · have := hm.2 (le_of_lt h0)
      omega
    · have h1 := hm.1 (le_of_eq h0.symm)
      have h2 := hm.2 (le_of_eq h0)
      omega
    · have := hm.1 (le_of_lt h0)
      omega
  · intro h1 h2 h3
    exact tdiv_unique v n q2 r2 hn h1 h2 h3

/-- Witness for C9: on a 32-bit signed column the value 10 with count 2 gives 5, and the
value -7 with count 2 gives -3 (not -4), with remainder -1. -/
theorem store_output_functor_mean_integer_witness :
    store_output_functor_mean int32_column IntType.int32_t
        { out := 0, val := 10, count := 2 } = some { out := 5, val := 10, count := 2 } ∧
      store_output_functor_mean int32_column IntType.int32_t
        { out := 0, val := -7, count := 2 } = some { out := -3, val := -7, count := 2 } ∧
      (-7 : Int) = -3 * 2 + -1 :=
  ⟨(store_output_functor_mean_integer int32_column IntType.int32_t 0 10 2 5 0 rfl rfl
      (by decide) (by decide) (by decide)).1,
    (store_output_functor_mean_integer int32_column IntType.int32_t 0 (-7) 2 (-3) (-1) rfl rfl
      (by decide) (by decide) (by decide)).1,
    (store_output_functor_mean_integer int32_column IntType.int32_t 0 (-7) 2 (-3) (-1) rfl rfl
      (by decide) (by decide) (by decide)).2.1⟩

/-- C10: for the boolean element type with storage `rep`, an accumulated value `v` that
`int32_t` holds and a positive `size_type` count `n`, the MEAN store widens `v` to
`int32_t` and divides there, truncating toward zero: it is defined, writes that quotient,
and writes what the integer MEAN store writes for the widened value on an `int32_t`
column. -/
theorem store_output_functor_mean_boolean
    (T Tint : ColumnType) (rep : IntType) (out v n : Int)
    (hbool : T.is_boolean = true) (hts : T.is_timestamp = false)
    (hintb : Tint.is_boolean = false) (hintt : Tint.is_timestamp = false)
    (hv : rep.holds v = true) (hwide : IntType.int32_t.holds v = true)
    (hn : 0 < n) (hcount : size_type.holds n = true) :
    store_output_functor_mean T rep { out := out, val := v, count := n } =
        some { out := Int.tdiv (IntType.int32_t.convert v) n, val := v, count := n } ∧
      IntType.int32_t.convert v = v ∧
      (store_output_functor_mean T rep { out := out, val := v, count := n }).map Slots.out =
        (store_output_functor_mean Tint IntType.int32_t
          { out := out, val := IntType.int32_t.convert v, count := n }).map Slots.out := by
  have hw := IntType.convert_of_holds _ _ hwide
  refine ⟨?_, hw, ?_⟩
  · simp only [store_output_functor_mean, hbool, hts, Bool.true_and, Bool.false_eq_true,
      if_false, if_true, hw, arith_div_count _ v n hwide hn hcount, Option.map_some',
      convert_tdiv rep v n hv hn]
  · simp only [store_output_functor_mean, hbool, hts, hintb, hintt, Bool.true_and,
      Bool.false_and, Bool.false_eq_true, if_false, if_true, hw,
      arith_div_count _ v n hwide hn hcount, Option.map_some',
      convert_tdiv rep v n hv hn, convert_tdiv _ v n hwide hn]

/-- Witness for C10: on the boolean column stored in 8 bits, an accumulated value of 3 with
count 4 gives 0. -/
theorem store_output_functor_mean_boolean_witness :
    store_output_functor_mean bool8_column IntType.uint8_t
        { out := 1, val := 3, count := 4 } = some { out := 0, val := 3, count := 4 } :=
  (store_output_functor_mean_boolean bool8_column int32_column IntType.uint8_t 1 3 4
    rfl rfl rfl rfl (by decide) (by decide) (by decide) (by decide)).1

/-- C11: for a timestamp element type whose ticks since the epoch are carried by `rep`,
an accumulated timestamp with `v` ticks since the epoch and a positive `size_type` count
`n`, the MEAN store is defined and writes the value with `v / n` ticks since the epoch, the
quotient truncated toward zero, in the same resolution. -/
theorem store_output_functor_mean_timestamp
    (T : ColumnType) (rep : IntType) (out v n : Int)
    (hts : T.is_timestamp = true) (hbool : T.is_boolean = false)
    (hv : rep.holds v = true) (hn : 0 < n) (hcount : size_type.holds n = true) :
    store_output_functor_mean T rep { out := out, val := v, count := n } =
      some { out := Int.tdiv v n, val := v, count := n } := by
  simp only [store_output_functor_mean, hbool, hts, Bool.false_and, Bool.false_eq_true,
    if_false, if_true, arith_div_count rep v n hv hn hcount, Option.map_some',
    convert_tdiv rep v n hv hn]

/-- Witness for C11: 100 ticks (seconds) since the epoch with count 5 gives 20 ticks. -/
theorem store_output_functor_mean_timestamp_witness :
    store_output_functor_mean timestamp_column IntType.int64_t
        { out := 0, val := 100, count := 5 } = some { out := 20, val := 100, count := 5 } :=
  store_output_functor_mean_timestamp timestamp_column IntType.int64_t 0 100 5 rfl rfl
    (by decide) (by decide) (by decide)

/-- C12: with a positive `size_type` count every MEAN store path is total. For an element
type that is not both boolean and timestamp, a value `v` of its representation (which
`int32_t` holds when the type is boolean) and `0 < n`: the store has a result; the
divisor, converted to the type the division is done in, is still `n`, so neither zero nor
`-1`; and the quotient `q` written satisfies `|q| ≤ |v|`, lies between zero and `v`, and
is a value of the representation, so that storing it converts nothing. -/
theorem store_output_functor_mean_total
    (T : ColumnType) (rep : IntType) (out v n : Int)
    (hpath : T.is_boolean = false ∨ T.is_timestamp = false)
    (hv : rep.holds v = true)
    (hwide : T.is_boolean = true → IntType.int32_t.holds v = true)
    (hn : 0 < n) (hcount : size_type.holds n = true) :
    store_output_functor_mean T rep { out := out, val := v, count := n } =
        some { out := Int.tdiv v n, val := v, count := n } ∧
      (common_type rep size_type).convert n = n ∧
      (common_type IntType.int32_t size_type).convert n = n ∧
      n ≠ 0 ∧ n ≠ -1 ∧
      |Int.tdiv v n| ≤ |v| ∧
      ((0 ≤ Int.tdiv v n ∧ Int.tdiv v n ≤ v) ∨ (v ≤ Int.tdiv v n ∧ Int.tdiv v n ≤ 0)) ∧
      rep.holds (Int.tdiv v n) = true ∧
      rep.convert (Int.tdiv v n) = Int.tdiv v n := by
  have hb := tdiv_between v n hn
  have hbetween : (0 ≤ Int.tdiv v n ∧ Int.tdiv v n ≤ v) ∨
      (v ≤ Int.tdiv v n ∧ Int.tdiv v n ≤ 0) := by
    rcases le_total 0 v with h0 | h0
    · exact Or.inl (hb.1 h0)
    · exact Or.inr (hb.2 h0)
  refine ⟨?_, IntType.convert_of_holds _ _ (common_type_holds_count rep n hn hcount),
    IntType.convert_of_holds _ _ (common_type_holds_count _ n hn hcount),
    by omega, by omega, ?_, hbetween, IntType.holds_between rep v _ hv hbetween,
    convert_tdiv rep v n hv hn⟩
  · cases hB : T.is_boolean
    · cases hT : T.is_timestamp <;>
        simp only [store_output_functor_mean, hB, hT, Bool.false_and, Bool.false_eq_true,
          if_false, if_true, arith_div_count rep v n hv hn hcount, Option.map_some',
          convert_tdiv rep v n hv hn]
    · have hT : T.is_timestamp = false := by
        rcases hpath with h | h
        · rw [hB] at h
          exact absurd h (by decide)
        · exact h
      have hw := hwide hB
      simp only [store_output_functor_mean, hB, hT, Bool.true_and, Bool.false_eq_true,
        if_false, if_true, IntType.convert_of_holds _ _ hw,
        arith_div_count _ v n hw hn hcount, Option.map_some', convert_tdiv rep v n hv hn]
  · rcases hbetween with h | h
    · rw [abs_of_nonneg h.1, abs_of_nonneg (le_trans h.1 h.2)]
      exact h.2
    · rw [abs_of_nonpos h.2, abs_of_nonpos (le_trans h.1 h.2)]
      omega

/-- Witness for C12: the smallest 64-bit value with count 1 on a 64-bit timestamp, the
one dividend for which a divisor of `-1` would overflow. -/
theorem store_output_functor_mean_total_witness :
    store_output_functor_mean timestamp_column IntType.int64_t
        { out := 0, val := -9223372036854775808, count := 1 } =
      some { out := -9223372036854775808, val := -9223372036854775808, count := 1 } :=
  (store_output_functor_mean_total timestamp_column IntType.int64_t 0
    (-9223372036854775808) 1 (Or.inl rfl) (by decide) (by decide) (by decide)
    (by decide)).1

/-- C13: on the explicit state (out, val, count), both stores change the output slot only.
For every element type, every state and every count (zero included), the store that is
not a MEAN keeps `val` and `count`, and its result is the same for any two previous
contents of `out`. The result of the MEAN store, defined or not, is the same for any two
previous contents of `out`; and whenever it is defined, it keeps `val` and `count`
(and is the result from any other previous content of `out`). -/
theorem store_output_functor_frame
    (E : Type) (o o2 w : E) (c : Int)
    (T : ColumnType) (rep : IntType) (out out2 v n : Int) (s2 : Slots Int) :
    (store_output_functor { out := o, val := w, count := c }).val = w ∧
      (store_output_functor { out := o, val := w, count := c }).count = c ∧
      store_output_functor { out := o, val := w, count := c } =
        store_output_functor { out := o2, val := w, count := c } ∧
      store_output_functor_mean T rep { out := out, val := v, count := n } =
        store_output_functor_mean T rep { out := out2, val := v, count := n } ∧
      (store_output_functor_mean T rep { out := out, val := v, count := n } = some s2 →
        s2.val = v ∧ s2.count = n ∧
          store_output_functor_mean T rep { out := out2, val := v, count := n } =
            some s2) := by
  have hsame : store_output_functor_mean T rep { out := out, val := v, count := n } =
      store_output_functor_mean T rep { out := out2, val := v, count := n } := by
    cases hB : T.is_boolean <;> cases hT : T.is_timestamp <;>
      simp only [store_output_functor_mean, hB, hT, Bool.and_self, Bool.and_true,
        Bool.and_false, Bool.false_eq_true, if_false, if_true]
  refine ⟨rfl, rfl, rfl, hsame, ?_⟩
  intro h
  have key : ∀ r : Option Int,
      r.map (fun q => ({ out := rep.convert q, val := v, count := n } : Slots Int)) =
        some s2 → s2.val = v ∧ s2.count = n := by
    intro r hr
    cases r with
    | none => simp at hr
    | some q =>
      simp only [Option.map_some', Option.some.injEq] at hr
      subst hr
      exact ⟨rfl, rfl⟩
  have hframe : s2.val = v ∧ s2.count = n := by
    cases hB : T.is_boolean <;> cases hT : T.is_timestamp <;>
      simp only [store_output_functor_mean, hB, hT, Bool.and_self, Bool.and_true,
        Bool.and_false, Bool.false_eq_true, if_false, if_true] at h
    · exact key _ h
    · exact key _ h
    · exact key _ h
    · exact absurd h (by simp)
  exact ⟨hframe.1, hframe.2, hsame ▸ h⟩

/-- Witness for C13: the store that is not a MEAN with count 0, started from the output
contents 7 and 99; and the MEAN store on a 32-bit signed column with value 10 and count 2,
started from the output contents 0 and 99. -/
theorem store_output_functor_frame_witness :
    (store_output_functor ({ out := 7, val := 3, count := 0 } : Slots Int)).val = 3 ∧
      (store_output_functor ({ out := 7, val := 3, count := 0 } : Slots Int)).count = 0 ∧
      store_output_functor ({ out := 7, val := 3, count := 0 } : Slots Int) =
        store_output_functor ({ out := 99, val := 3, count := 0 } : Slots Int) ∧
      store_output_functor_mean int32_column IntType.int32_t
          { out := 0, val := 10, count := 2 } =
        store_output_functor_mean int32_column IntType.int32_t
          { out := 99, val := 10, count := 2 } ∧
      ({ out := 5, val := 10, count := 2 } : Slots Int).val = 10 ∧
      ({ out := 5, val := 10, count := 2 } : Slots Int).count = 2 ∧
      store_output_functor_mean int32_column IntType.int32_t
        { out := 99, val := 10, count := 2 } = some { out := 5, val := 10, count := 2 } :=
  have t := store_output_functor_frame Int 7 99 3 0 int32_column IntType.int32_t 0 99 10 2
    { out := 5, val := 10, count := 2 }
  ⟨t.1, t.2.1, t.2.2.1, t.2.2.2.1, t.2.2.2.2 (by decide)⟩

/-- C14: `is_supported` depends only on the answers of the type traits it asks, the
operator, the kind and the answer of `is_valid_aggregation`: two evaluations for which
these agree give the same result, whatever the two values of the `is_mean` flag (and of
the `is_boolean` trait, which it does not ask). -/
theorem is_supported_deterministic
    (valid valid2 : ColumnType → Kind → Bool) (T T2 : ColumnType) (A : AggOp) (op : Kind)
    (m m2 : Bool)
    (hnum : T.is_numeric = T2.is_numeric) (hts : T.is_timestamp = T2.is_timestamp)
    (htext : T.is_string_view = T2.is_string_view) (hvalid : valid T op = valid2 T2 op) :
    is_supported valid T A op m = is_supported valid2 T2 A op m2 := by
  simp only [is_supported, hnum, hts, htext, hvalid]

/-- Witness for C14: a numeric column with `DeviceSum` and `MEAN`, evaluated with the flag
`is_mean` set and unset. -/
theorem is_supported_deterministic_witness :
    is_supported valid_always int32_column AggOp.DeviceSum Kind.MEAN true =
      is_supported valid_always int32_column AggOp.DeviceSum Kind.MEAN false :=
  is_supported_deterministic valid_always valid_always int32_column int32_column
    AggOp.DeviceSum Kind.MEAN true false rfl rfl rfl rfl

/-- C15: `is_supported` and `is_string_supported` are never both `true` for the same
column type, operator and kind, whatever `is_valid_aggregation` answers. -/
theorem is_supported_is_string_supported_exclusive
    (valid : ColumnType → Kind → Bool) (T : ColumnType) (A : AggOp) (op : Kind) (m : Bool) :
    (is_supported valid T A op m && is_string_supported T A op) = false := by
  cases htext : T.is_string_view
  · simp [is_string_supported, htext]
  · simp [is_supported, htext]

/-- C16: a timestamp column type (not numeric, not text) is accepted by `is_supported`
with every operator and each of `MIN`, `MAX`, `COUNT_VALID`, `COUNT_ALL`, `MEAN`,
whenever `is_valid_aggregation` holds: the timestamp branch does not ask the operator. -/
theorem is_supported_timestamp_any_operator
    (valid : ColumnType → Kind → Bool) (T : ColumnType) (A : AggOp) (op : Kind) (m : Bool)
    (hts : T.is_timestamp = true) (hnum : T.is_numeric = false)
    (htext : T.is_string_view = false)
    (hop : op = Kind.MIN ∨ op = Kind.MAX ∨ op = Kind.COUNT_VALID ∨ op = Kind.COUNT_ALL ∨
      op = Kind.MEAN)
    (hvalid : valid T op = true) :
    is_supported valid T A op m = true := by
  have h1 : (decide (op = Kind.MIN) || decide (op = Kind.MAX) ||
      decide (op = Kind.COUNT_VALID) || decide (op = Kind.COUNT_ALL) ||
      decide (op = Kind.MEAN)) = true := by
    rcases hop with h | h | h | h | h <;> simp [h]
  simp only [is_supported, hts, htext, hvalid, h1, Bool.not_false, Bool.true_and,
    Bool.and_true, Bool.true_or]

/-- Witness for C16: a timestamp column with the operator `DeviceSum`, which is none of
`DeviceMin`, `DeviceMax`, `DeviceCount`, and kind `MIN`. -/
theorem is_supported_timestamp_any_operator_witness :
    is_supported valid_always timestamp_column AggOp.DeviceSum Kind.MIN false = true :=
  is_supported_timestamp_any_operator valid_always timestamp_column AggOp.DeviceSum Kind.MIN
    false rfl rfl rfl (Or.inl rfl) rfl

/-- C17: for a numeric column type (not text, not a timestamp) and any kind,
`is_supported` gives the same result for any two operators. -/
theorem is_supported_numeric_operator_irrelevant
    (valid : ColumnType → Kind → Bool) (T : ColumnType) (A A2 : AggOp) (op : Kind) (m : Bool)
    (hnum : T.is_numeric = true) (hts : T.is_timestamp = false)
    (htext : T.is_string_view = false) :
    is_supported valid T A op m = is_supported valid T A2 op m := by
  simp only [is_supported, hnum, hts, htext, Bool.true_or]

/-- Witness for C17: a numeric column with kind `MAX` is accepted with the operator
`DeviceMin` as it is with `DeviceMax`. -/
theorem is_supported_numeric_operator_irrelevant_witness :
    is_supported valid_always int32_column AggOp.DeviceMin Kind.MAX false =
        is_supported valid_always int32_column AggOp.DeviceMax Kind.MAX false ∧
      is_supported valid_always int32_column AggOp.DeviceMin Kind.MAX false = true :=
  ⟨is_supported_numeric_operator_irrelevant valid_always int32_column AggOp.DeviceMin
    AggOp.DeviceMax Kind.MAX false rfl rfl rfl, by decide⟩

/-- C18: with count 1 the MEAN store agrees with the store that is not a MEAN on each of
the three paths: for an element type that is not both boolean and timestamp and a value
`v` of its representation (which `int32_t` holds when the type is boolean), the MEAN
store is defined and its result is the result of the other store, whose output is `v`. -/
theorem store_output_functor_mean_count_one
    (T : ColumnType) (rep : IntType) (out v : Int)
    (hpath : T.is_boolean = false ∨ T.is_timestamp = false)
    (hv : rep.holds v = true)
    (hwide : T.is_boolean = true → IntType.int32_t.holds v = true) :
    store_output_functor_mean T rep { out := out, val := v, count := 1 } =
        some (store_output_functor { out := out, val := v, count := 1 }) ∧
      (store_output_functor ({ out := out, val := v, count := 1 } : Slots Int)).out = v := by
  refine ⟨?_, rfl⟩
  have h1 : (0 : Int) < 1 := by decide
  have hc : size_type.holds 1 = true := by decide
  have hq : Int.tdiv v 1 = v := Int.tdiv_one v
  have hconv : rep.convert v = v := IntType.convert_of_holds rep v hv
  cases hB : T.is_boolean
  · cases hT : T.is_timestamp <;>
      simp only [store_output_functor_mean, store_output_functor, hB, hT, Bool.false_and,
        Bool.false_eq_true, if_false, if_true, arith_div_count rep v 1 hv h1 hc,
        Option.map_some', hq, hconv]
  · have hT : T.is_timestamp = false := by
      rcases hpath with h | h
      · rw [hB] at h
        exact absurd h (by decide)
      · exact h
    have hw := hwide hB
    simp only [store_output_functor_mean, store_output_functor, hB, hT, Bool.true_and,
      Bool.false_eq_true, if_false, if_true, IntType.convert_of_holds _ _ hw,
      arith_div_count _ v 1 hw h1 hc, Option.map_some', hq, hconv]

/-- Witness for C18: the boolean column stored in 8 bits with the value 1 and count 1. -/
theorem store_output_functor_mean_count_one_witness :
    store_output_functor_mean bool8_column IntType.uint8_t
        { out := 0, val := 1, count := 1 } =
      some (store_output_functor ({ out := 0, val := 1, count := 1 } : Slots Int)) ∧
      (store_output_functor ({ out := 0, val := 1, count := 1 } : Slots Int)).out = 1 :=
  store_output_functor_mean_count_one bool8_column IntType.uint8_t 0 1 (Or.inr rfl)
    (by decide) (by decide)

/-- C19: for the boolean MEAN store with a widened accumulated value `0 ≤ v` and a
`size_type` count `n`: the output is 0 whenever `v < n`; for `v` either 0 or 1 it is 0 for
every `n ≥ 2` and is `v` for `n = 1`; hence the output is non-zero only if `n ≤ v`. -/
theorem store_output_functor_mean_boolean_zero
    (T : ColumnType) (rep : IntType) (out v n : Int)
    (hbool : T.is_boolean = true) (hts : T.is_timestamp = false)
    (hv : 0 ≤ v) (hcount : size_type.holds n = true) :
    (v < n → store_output_functor_mean T rep { out := out, val := v, count := n } =
        some { out := 0, val := v, count := n }) ∧
      ((v = 0 ∨ v = 1) → 2 ≤ n →
        store_output_functor_mean T rep { out := out, val := v, count := n } =
          some { out := 0, val := v, count := n }) ∧
      ((v = 0 ∨ v = 1) → n = 1 →
        store_output_functor_mean T rep { out := out, val := v, count := n } =
          some { out := v, val := v, count := n }) ∧
      ((store_output_functor_mean T rep { out := out, val := v, count := n }).map Slots.out ≠
          some 0 → n ≤ v) := by
  have hmax : n ≤ 2147483647 := by
    have h := (IntType.holds_iff _ _).mp hcount
    simp only [size_type, IntType.max, IntType.bits, IntType.is_signed, if_true] at h
    norm_num at h
    exact h.2
  have hzero : rep.convert 0 = 0 := by cases rep <;> rfl
  have hone : rep.convert 1 = 1 := by cases rep <;> rfl
  have key : v < n → store_output_functor_mean T rep { out := out, val := v, count := n } =
      some { out := 0, val := v, count := n } := by
    intro hlt
    have hn : 0 < n := lt_of_le_of_lt hv hlt
    have hw : IntType.int32_t.holds v = true := by
      rw [IntType.holds_iff]
      simp only [IntType.min, IntType.max, IntType.bits, IntType.is_signed, if_true]
      norm_num
      omega
    simp only [store_output_functor_mean, hbool, hts, Bool.true_and, Bool.false_eq_true,
      if_false, if_true, IntType.convert_of_holds _ _ hw,
      arith_div_count _ v n hw hn hcount, Option.map_some',
      Int.tdiv_eq_zero_of_lt hv hlt, hzero]
  refine ⟨key, ?_, ?_, ?_⟩
  · intro h01 h2
    exact key (by omega)
  · intro h01 h1
    subst h1
    have hw : IntType.int32_t.holds v = true := by
      rcases h01 with h | h <;> subst h <;> decide
    have hcv : rep.convert v = v := by
      rcases h01 with h | h <;> subst h <;> assumption
    simp only [store_output_functor_mean, hbool, hts, Bool.true_and, Bool.false_eq_true,
      if_false, if_true, IntType.convert_of_holds _ _ hw,
      arith_div_count _ v 1 hw (by decide) hcount, Option.map_some', Int.tdiv_one, hcv]
  · intro hne
    by_contra hlt
    rw [key (by omega)] at hne
    exact hne rfl

/-- Witness for C19: the boolean column stored in 8 bits with the value 1 (true): count 2
gives 0 and count 1 gives 1. -/
theorem store_output_functor_mean_boolean_zero_witness :
    store_output_functor_mean bool8_column IntType.uint8_t
        { out := 1, val := 1, count := 2 } = some { out := 0, val := 1, count := 2 } ∧
      store_output_functor_mean bool8_column IntType.uint8_t
        { out := 0, val := 1, count := 1 } = some { out := 1, val := 1, count := 1 } :=
  ⟨(store_output_functor_mean_boolean_zero bool8_column IntType.uint8_t 1 1 2 rfl rfl
      (by decide) (by decide)).1 (by decide),
    (store_output_functor_mean_boolean_zero bool8_column IntType.uint8_t 0 1 1 rfl rfl
      (by decide) (by decide)).2.2.1 (Or.inr rfl) rfl⟩

end detail

end cudf
